import Mathlib

/-!
Shallow embedding of `src/core/scraper.py` (FitFindr Pinterest scraper).

The module under study fetches pins from an upstream search API and
normalizes them into a fixed item schema, falling back to synthetic
"mock" items whenever the fetch fails or the payload is flagged
unsuccessful.  Machine-level concerns (the HTTP transport itself) are
abstracted into an `Except FetchError Payload` fetch outcome that is
passed in; everything the Python code does with that outcome is
translated below.  Randomness (`random.randint`) is modelled by an
explicit entropy stream `rng : Nat → Nat`, one draw per index, with
`randint lo hi r = lo + r % (hi + 1 - lo)` — an integer in `[lo, hi]`
exactly as Python's inclusive `randint` produces.
-/

/-- Decimal digits of `n`, most significant first, with explicit fuel so the
definition is structural and kernel-reducible.  `decDigits (n+1) n` is the
decimal representation used by Python string interpolation of an `int`. -/
def decDigits : Nat → Nat → List Char
  | 0, _ => []
  | fuel + 1, n =>
    if n < 10 then [Nat.digitChar n]
    else decDigits fuel (n / 10) ++ [Nat.digitChar (n % 10)]

/-- Decimal string of a natural number, as Python renders an `int` inside an
f-string (`f"mock_{i+1}"` and friends). -/
def decimalRepr (n : Nat) : String := String.mk (decDigits (n + 1) n)

/-- One step of Python `str.title()`: a letter that does not follow a letter
is uppercased, a letter following a letter is lowercased, other characters
pass through (ASCII-faithful model of `keyword.title()`). -/
def pyTitleAux : Bool → List Char → List Char
  | _, [] => []
  | prev, c :: cs =>
    if c.isAlpha then
      (if prev then c.toLower else c.toUpper) :: pyTitleAux true cs
    else
      c :: pyTitleAux false cs

/-- Python `keyword.title()`. -/
def pyTitle (s : String) : String := String.mk (pyTitleAux false s.data)

/-- Python `random.randint(lo, hi)`: an integer in the inclusive range
`[lo, hi]`, here drawn deterministically from one entropy word `r`. -/
def randint (lo hi r : Nat) : Nat := lo + r % (hi + 1 - lo)

/-- One entry of a pin's image-variant map (`images["orig"]`): a dict that
may carry a `url` key. -/
structure ImageEntry where
  url : Option String
deriving DecidableEq, Repr

/-- A pin's image-variant map.  The code only ever reads the `"orig"` key
(`if "orig" in images`), so only that entry is modelled. -/
structure Images where
  orig : Option ImageEntry
deriving DecidableEq, Repr

/-- The attribution sub-object (`pin.get("pinner", {})`). -/
structure Pinner where
  full_name : Option String
deriving DecidableEq, Repr

/-- A raw provider pin record.  Every field the Python code reads with
`pin.get(...)` is optional: `none` models a missing key. -/
structure Pin where
  id : Option String := none
  grid_title : Option String := none
  description : Option String := none
  images : Option Images := none
  url : Option String := none
  pinner : Option Pinner := none
  created_at : Option String := none
deriving DecidableEq, Repr

/-- The parsed top-level JSON payload: `data.get("success")` and
`data.get("pins", [])`. -/
structure Payload where
  success : Option Bool := none
  pins : Option (List Pin) := none
deriving DecidableEq, Repr

/-- A network-level fault (requests exception, timeout, non-2xx status
raised by `raise_for_status`, JSON decode error, ...) carrying its cause. -/
inductive FetchError where
  | fault (cause : String)
deriving DecidableEq, Repr

/-- The canonical item produced by the pipeline: the dict literal built in
`scrape_pinterest` / `_generate_mock_items`.  `source_url` and `created_at`
are `Option String` because the code reads them with a bare `pin.get(...)`,
which yields `None` for a missing key. -/
structure Item where
  id : String
  title : String
  description : String
  image_url : String
  source_url : Option String
  style : String
  creator : String
  likes : Nat
  saves : Nat
  created_at : Option String
deriving DecidableEq, Repr

/-- Python truthiness of `data.get("success")`: `not data.get("success")`
is `false` exactly when the key holds `True`. -/
def pyTruthy : Option Bool → Bool
  | some b => b
  | none => false

/-- Body of the success-path loop for one pin at 0-based index `i`:
the dict literal at `scraper.py` lines 52–68.  `rng (2*i)` and
`rng (2*i+1)` are the two sequential `random.randint` draws of the
iteration. -/
def map_pin (keyword : String) (rng : Nat → Nat) (i : Nat) (pin : Pin) : Item :=
  let images := pin.images.getD ⟨none⟩
  let image_url : String :=
    match images.orig with
    | some entry => entry.url.getD ""
    | none => ""
  { id := pin.id.getD ("pin_" ++ decimalRepr (i + 1))
    title :=
      match pin.grid_title with
      | some t => if t = "" then pin.description.getD "" else t
      | none => pin.description.getD ""
    description := pin.description.getD ""
    image_url := image_url
    source_url := pin.url
    style := keyword
    creator := ((pin.pinner.getD ⟨none⟩).full_name).getD ""
    likes := randint 50 500 (rng (2 * i))
    saves := randint 10 100 (rng (2 * i + 1))
    created_at := pin.created_at }

/-- `for i, pin in enumerate(pins[:max_items])`, already applied to the
truncated list: maps each pin with its running index. -/
def map_pins (keyword : String) (rng : Nat → Nat) : Nat → List Pin → List Item
  | _, [] => []
  | i, pin :: rest => map_pin keyword rng i pin :: map_pins keyword rng (i + 1) rest

/-- One synthetic fallback item at 0-based index `i`
(`_generate_mock_items` loop body, `scraper.py` lines 81–93). -/
def mock_item (keyword : String) (rng : Nat → Nat) (i : Nat) : Item :=
  { id := "mock_" ++ decimalRepr (i + 1)
    title := "Mock " ++ pyTitle keyword ++ " Item " ++ decimalRepr (i + 1)
    description := "Demo fallback " ++ keyword ++ " item."
    image_url := "https://picsum.photos/300/400?random=" ++ decimalRepr (i + 1)
    source_url := some "https://pinterest.com"
    style := keyword
    creator := "Mock User"
    likes := randint 50 500 (rng (2 * i))
    saves := randint 10 100 (rng (2 * i + 1))
    created_at := some "2025-01-01T00:00:00Z" }

/-- `PinterestScraper._generate_mock_items(keyword, count)`. -/
def generate_mock_items (keyword : String) (count : Nat) (rng : Nat → Nat) : List Item :=
  (List.range count).map (mock_item keyword rng)

/-- `PinterestScraper.scrape_pinterest(keyword, max_items)`, given the
outcome of the fetch (`session.get` + `raise_for_status` + `json()`).
The `try`/`except` around the whole body sends every fetch fault to
`_generate_mock_items`; an unsuccessful payload does the same. -/
def scrape_pinterest (keyword : String) (max_items : Nat)
    (fetch : Except FetchError Payload) (rng : Nat → Nat) : List Item :=
  match fetch with
  | .error _ => generate_mock_items keyword max_items rng
  | .ok data =>
    if pyTruthy data.success then
      map_pins keyword rng 0 ((data.pins.getD []).take max_items)
    else
      generate_mock_items keyword max_items rng

/-- A network request issued by the scraper (none happen at construction). -/
inductive NetCall where
  | get (url : String)
deriving DecidableEq, Repr

/-- The constructed scraper state: the resolved key and fixed endpoint. -/
structure ScraperState where
  api_key : String
  endpoint : String
deriving DecidableEq, Repr

/-- `PinterestScraper.__init__`: reads `SCRAPE_CREATORS_KEY` from the
environment (`none` = unset), raises `ValueError` when it is missing or
empty (`if not self.api_key`), otherwise builds the session state.  The
second component records the network calls construction performs: none. -/
def PinterestScraper.init (env : Option String) :
    Except String ScraperState × List NetCall :=
  match env with
  | none => (.error "❌ Missing SCRAPE_CREATORS_KEY in .env file", [])
  | some k =>
    if k = "" then (.error "❌ Missing SCRAPE_CREATORS_KEY in .env file", [])
    else (.ok { api_key := k, endpoint := "https://api.scrapecreators.com/v1/pinterest/search" }, [])

/-- A credential token is resolvable when the environment variable is set
to a non-empty string (Python's truthiness test on `os.getenv`). -/
def token_resolvable (env : Option String) : Prop :=
  ∃ k, env = some k ∧ k ≠ ""

/-- A fixed entropy stream for concrete evaluations. -/
def rng0 : Nat → Nat := fun _ => 0

/-! ### Helper lemmas -/

/-- Numeric value of a decimal digit character. -/
def digitVal (c : Char) : Nat := c.toNat - 48

/-- Parse a most-significant-first digit list back to a number. -/
def parseDigits (cs : List Char) : Nat :=
  cs.foldl (fun a c => a * 10 + digitVal c) 0

theorem digitVal_digitChar {d : Nat} (h : d < 10) :
    digitVal (Nat.digitChar d) = d := by
  interval_cases d <;> rfl

theorem parseDigits_append_singleton (cs : List Char) (c : Char) :
    parseDigits (cs ++ [c]) = parseDigits cs * 10 + digitVal c := by
  simp [parseDigits, List.foldl_append]

theorem parseDigits_decDigits : ∀ fuel n, n < fuel →
    parseDigits (decDigits fuel n) = n := by
  intro fuel
  induction fuel with
  | zero => intro n h; omega
  | succ f ih =>
    intro n h
    by_cases h10 : n < 10
    · simp [decDigits, h10, parseDigits, digitVal_digitChar h10]
    · have hpos : 0 < n := by omega
      have hdiv : n / 10 < n := Nat.div_lt_self hpos (by omega)
      have hf : n / 10 < f := by omega
      have hmod : n % 10 < 10 := Nat.mod_lt _ (by omega)
      have hdm := Nat.div_add_mod n 10
      simp only [decDigits, h10, if_false]
      rw [parseDigits_append_singleton, ih _ hf, digitVal_digitChar hmod]
      omega

theorem decimalRepr_injective : Function.Injective decimalRepr := by
  intro m n h
  have hdata : decDigits (m + 1) m = decDigits (n + 1) n :=
    congrArg String.data h
  have := congrArg parseDigits hdata
  rwa [parseDigits_decDigits _ m (Nat.lt_succ_self m),
    parseDigits_decDigits _ n (Nat.lt_succ_self n)] at this

theorem string_append_left_cancel {a s t : String}
    (h : a ++ s = a ++ t) : s = t := by
  have hd : a.data ++ s.data = a.data ++ t.data := by
    have := congrArg String.data h
    simpa [String.data_append] using this
  have : s.data = t.data := List.append_cancel_left hd
  cases s; cases t
  exact congrArg String.mk this

theorem randint_bounds (lo hi r : Nat) (h : lo ≤ hi) :
    lo ≤ randint lo hi r ∧ randint lo hi r ≤ hi := by
  have hk : 0 < hi + 1 - lo := by omega
  have := Nat.mod_lt r hk
  unfold randint
  omega

theorem map_pins_length (keyword : String) (rng : Nat → Nat) :
    ∀ i ps, (map_pins keyword rng i ps).length = ps.length := by
  intro i ps
  induction ps generalizing i with
  | nil => rfl
  | cons p rest ih => simp [map_pins, ih]

theorem map_pins_get? (keyword : String) (rng : Nat → Nat) :
    ∀ ps i j, (map_pins keyword rng i ps).get? j =
      (ps.get? j).map (map_pin keyword rng (i + j)) := by
  intro ps
  induction ps with
  | nil => intro i j; simp [map_pins]
  | cons p rest ih =>
    intro i j
    cases j with
    | zero => simp [map_pins]
    | succ j =>
      have hidx : i + 1 + j = i + (j + 1) := by omega
      simp only [map_pins, List.get?]
      rw [ih (i + 1) j, hidx]

theorem mem_map_pins {keyword : String} {rng : Nat → Nat} :
    ∀ {i ps it}, it ∈ map_pins keyword rng i ps →
      ∃ j pin, it = map_pin keyword rng j pin := by
  intro i ps
  induction ps generalizing i with
  | nil => intro it h; simp [map_pins] at h
  | cons p rest ih =>
    intro it h
    simp only [map_pins, List.mem_cons] at h
    rcases h with h | h
    · exact ⟨i, p, h⟩
    · exact ih h

theorem mem_generate_mock_items {keyword : String} {rng : Nat → Nat}
    {count : Nat} {it : Item} (h : it ∈ generate_mock_items keyword count rng) :
    ∃ i, i < count ∧ it = mock_item keyword rng i := by
  simp only [generate_mock_items, List.mem_map, List.mem_range] at h
  rcases h with ⟨i, hi, rfl⟩
  exact ⟨i, hi, rfl⟩

theorem generate_mock_items_length (keyword : String) (count : Nat)
    (rng : Nat → Nat) : (generate_mock_items keyword count rng).length = count := by
  simp [generate_mock_items]

example : decimalRepr 1 = "1" := by decide
example : decimalRepr 12 = "12" := by decide
example : decimalRepr 120 = "120" := by decide
example : pyTitle "vintage streetwear" = "Vintage Streetwear" := by decide
example : randint 50 500 0 = 50 := by decide
example : randint 50 500 451 = 50 := by decide
example : randint 10 100 90 = 100 := by decide

/-- Index-wise description of the success path: element `j` of the result
is the `j`-th provider record mapped with running index `j`, present
exactly when `j` is below both `max_items` and the record count. -/
theorem scrape_success_get_eq (keyword : String) (n : Nat) (ps : List Pin)
    (rng : Nat → Nat) (j : Nat) :
    (scrape_pinterest keyword n (.ok { success := some true, pins := some ps }) rng).get? j =
      (if j < n then ps.get? j else none).map (map_pin keyword rng j) := by
  show (map_pins keyword rng 0 (ps.take n)).get? j = _
  rw [map_pins_get?]
  simp only [Nat.zero_add]
  by_cases hj : j < n
  · rw [List.get?_take hj, if_pos hj]
  · rw [if_neg hj]
    have hnone : (ps.take n).get? j = none := by
      rw [List.get?_eq_none, List.length_take]
      omega
    rw [hnone]

/-! ### Claim theorems -/

/-- C1: if fetching raises a network-level fault or the payload's success
indicator is false, the pipeline returns the fallback list of the requested
count instead of raising (the result is total: no fault propagates). -/
theorem C1_fault_or_unsuccess_falls_back (keyword : String) (n : Nat)
    (fetch : Except FetchError Payload) (rng : Nat → Nat)
    (h : (∃ e, fetch = .error e) ∨ ∃ p, fetch = .ok p ∧ p.success = some false) :
    scrape_pinterest keyword n fetch rng = generate_mock_items keyword n rng ∧
    (scrape_pinterest keyword n fetch rng).length = n := by
  rcases h with ⟨e, rfl⟩ | ⟨p, rfl, hp⟩
  · exact ⟨rfl, generate_mock_items_length keyword n rng⟩
  · have : scrape_pinterest keyword n (.ok p) rng = generate_mock_items keyword n rng := by
      simp [scrape_pinterest, hp, pyTruthy]
    rw [this]
    exact ⟨rfl, generate_mock_items_length keyword n rng⟩

/-- Witness for C1 at a concrete timeout fault. -/
theorem C1_witness :
    scrape_pinterest "boho" 4 (.error (.fault "timeout")) rng0 =
      generate_mock_items "boho" 4 rng0 ∧
    (scrape_pinterest "boho" 4 (.error (.fault "timeout")) rng0).length = 4 :=
  C1_fault_or_unsuccess_falls_back "boho" 4 (.error (.fault "timeout")) rng0
    (Or.inl ⟨.fault "timeout", rfl⟩)

/-- C2: on the success path with `m` available records the result has
length `min n m` and element `j` is the `j`-th provider record mapped in
provider order; on the fallback path the result has length exactly `n`. -/
theorem C2_truncation_order_and_fallback_count (keyword : String) (n : Nat)
    (ps : List Pin) (rng : Nat → Nat) :
    (scrape_pinterest keyword n (.ok { success := some true, pins := some ps }) rng).length
      = min n ps.length ∧
    (∀ j : Nat,
      (scrape_pinterest keyword n (.ok { success := some true, pins := some ps }) rng).get? j
        = (if j < n then ps.get? j else none).map (map_pin keyword rng j)) ∧
    (generate_mock_items keyword n rng).length = n := by
  refine ⟨?_, fun j => scrape_success_get_eq keyword n ps rng j,
    generate_mock_items_length keyword n rng⟩
  show (map_pins keyword rng 0 (ps.take n)).length = min n ps.length
  rw [map_pins_length, List.length_take]

/-- C8 counterexample: with a successful payload carrying an empty record
list the pipeline returns the empty list, not the full-count fallback the
claim asserts. -/
theorem C8_counterexample :
    scrape_pinterest "casual" 20 (.ok { success := some true, pins := some [] }) rng0 = [] ∧
    (generate_mock_items "casual" 20 rng0).length = 20 ∧
    scrape_pinterest "casual" 20 (.ok { success := some true, pins := some [] }) rng0 ≠
      generate_mock_items "casual" 20 rng0 := by
  refine ⟨rfl, generate_mock_items_length "casual" 20 rng0, fun h => ?_⟩
  have hlen := congrArg List.length h
  rw [generate_mock_items_length] at hlen
  exact absurd hlen (by decide)

/-- C8 amended: a successful payload with an empty (or absent) record list
yields the empty list; the full-count synthetic fallback is not triggered
by "no items", only by fetch failure or a non-true success indicator. -/
theorem C8_amended_empty_success_gives_empty (keyword : String) (n : Nat)
    (rng : Nat → Nat) :
    scrape_pinterest keyword n (.ok { success := some true, pins := some [] }) rng = [] ∧
    scrape_pinterest keyword n (.ok { success := some true, pins := none }) rng = [] := by
  constructor <;> simp [scrape_pinterest, pyTruthy, map_pins]

/-- C3: every Item in the returned list, on both the success path and the
fallback path, has its `style` field equal to the invocation keyword. -/
theorem C3_style_is_keyword (keyword : String) (n : Nat)
    (fetch : Except FetchError Payload) (rng : Nat → Nat) (it : Item)
    (h : it ∈ scrape_pinterest keyword n fetch rng) : it.style = keyword := by
  have hmock : ∀ {x : Item}, x ∈ generate_mock_items keyword n rng → x.style = keyword := by
    intro x hx
    rcases mem_generate_mock_items hx with ⟨i, _, rfl⟩
    rfl
  cases fetch with
  | error e => exact hmock h
  | ok data =>
    simp only [scrape_pinterest] at h
    by_cases hs : pyTruthy data.success
    · rw [if_pos hs] at h
      rcases mem_map_pins h with ⟨j, pin, rfl⟩
      rfl
    · rw [if_neg hs] at h
      exact hmock h

/-- Witness for C3: a concrete fallback item carries the keyword. -/
theorem C3_witness :
    (mock_item "dark academia" rng0 0).style = "dark academia" :=
  C3_style_is_keyword "dark academia" 2 (.error (.fault "down")) rng0
    (mock_item "dark academia" rng0 0) (by decide)

/-- C5: every Item produced on either path has `likes ∈ [50, 500]` and
`saves ∈ [10, 100]`. -/
theorem C5_engagement_ranges (keyword : String) (n : Nat)
    (fetch : Except FetchError Payload) (rng : Nat → Nat) (it : Item)
    (h : it ∈ scrape_pinterest keyword n fetch rng) :
    (50 ≤ it.likes ∧ it.likes ≤ 500) ∧ 10 ≤ it.saves ∧ it.saves ≤ 100 := by
  have hl := fun r => randint_bounds 50 500 r (by omega)
  have hs := fun r => randint_bounds 10 100 r (by omega)
  have hmock : ∀ {x : Item}, x ∈ generate_mock_items keyword n rng →
      (50 ≤ x.likes ∧ x.likes ≤ 500) ∧ 10 ≤ x.saves ∧ x.saves ≤ 100 := by
    intro x hx
    rcases mem_generate_mock_items hx with ⟨i, _, rfl⟩
    exact ⟨hl (rng (2 * i)), hs (rng (2 * i + 1))⟩
  cases fetch with
  | error e => exact hmock h
  | ok data =>
    simp only [scrape_pinterest] at h
    by_cases hsucc : pyTruthy data.success
    · rw [if_pos hsucc] at h
      rcases mem_map_pins h with ⟨j, pin, rfl⟩
      exact ⟨hl (rng (2 * j)), hs (rng (2 * j + 1))⟩
    · rw [if_neg hsucc] at h
      exact hmock h

/-- Witness for C5 at a concrete success-path item. -/
theorem C5_witness :
    (50 ≤ (map_pin "y2k" rng0 0 {}).likes ∧ (map_pin "y2k" rng0 0 {}).likes ≤ 500) ∧
    10 ≤ (map_pin "y2k" rng0 0 {}).saves ∧ (map_pin "y2k" rng0 0 {}).saves ≤ 100 :=
  C5_engagement_ranges "y2k" 3 (.ok { success := some true, pins := some [{}] }) rng0
    (map_pin "y2k" rng0 0 {}) (by decide)

/-- C4: the fallback generator yields exactly `count` items, ids are the
sequential decimal strings `mock_1, ..., mock_count` (hence pairwise
distinct), image references are distinct per item, and source link,
creator label and timestamp are the fixed placeholder constants. -/
theorem C4_mock_list_shape (keyword : String) (count : Nat) (rng : Nat → Nat) :
    (generate_mock_items keyword count rng).length = count ∧
    (generate_mock_items keyword count rng).map Item.id =
      (List.range count).map (fun i => "mock_" ++ decimalRepr (i + 1)) ∧
    ((generate_mock_items keyword count rng).map Item.id).Nodup ∧
    ((generate_mock_items keyword count rng).map Item.image_url).Nodup ∧
    ∀ it ∈ generate_mock_items keyword count rng,
      it.source_url = some "https://pinterest.com" ∧
      it.creator = "Mock User" ∧
      it.created_at = some "2025-01-01T00:00:00Z" := by
  have hsucc_inj : Function.Injective (fun i : Nat => i + 1) := by
    intro a b hab
    simpa using hab
  have hid : (generate_mock_items keyword count rng).map Item.id =
      (List.range count).map (fun i => "mock_" ++ decimalRepr (i + 1)) := by
    simp only [generate_mock_items, List.map_map]
    rfl
  have himg : (generate_mock_items keyword count rng).map Item.image_url =
      (List.range count).map
        (fun i => "https://picsum.photos/300/400?random=" ++ decimalRepr (i + 1)) := by
    simp only [generate_mock_items, List.map_map]
    rfl
  refine ⟨generate_mock_items_length keyword count rng, hid, ?_, ?_, ?_⟩
  · rw [hid]
    refine List.Nodup.map ?_ (List.nodup_range count)
    intro a b hab
    exact hsucc_inj (decimalRepr_injective (string_append_left_cancel hab))
  · rw [himg]
    refine List.Nodup.map ?_ (List.nodup_range count)
    intro a b hab
    exact hsucc_inj (decimalRepr_injective (string_append_left_cancel hab))
  · intro it hit
    rcases mem_generate_mock_items hit with ⟨i, _, rfl⟩
    exact ⟨rfl, rfl, rfl⟩

/-- Witness for C4 at a concrete keyword, count and item. -/
theorem C4_witness :
    ((generate_mock_items "y2k" 3 rng0).map Item.id).Nodup ∧
    (mock_item "y2k" rng0 1).creator = "Mock User" :=
  ⟨(C4_mock_list_shape "y2k" 3 rng0).2.2.1,
   ((C4_mock_list_shape "y2k" 3 rng0).2.2.2.2 (mock_item "y2k" rng0 1) (by decide)).2.1⟩

/-- A provider record whose display title is present but empty while the
description is present. -/
def pin_blank_title : Pin :=
  { grid_title := some "", description := some "denim jacket fit" }

/-- C6 counterexample: with a present-but-empty display title and a present
description, the mapped title is the description, not the display title —
the `or` in the source tests truthiness, not key presence. -/
theorem C6_counterexample :
    pin_blank_title.grid_title = some "" ∧
    (map_pin "casual" rng0 0 pin_blank_title).title ≠ "" ∧
    (map_pin "casual" rng0 0 pin_blank_title).title = "denim jacket fit" := by
  refine ⟨rfl, ?_, rfl⟩
  decide

/-- C6 amended: the title is the display title when that is present and
non-empty, falls back to the description when the display title is absent
or empty, and is the empty string when both are absent; the image URL is
the original-size variant's url when present and empty when the variant
map lacks the original entry or is absent. -/
theorem C6_amended_title_and_image (keyword : String) (rng : Nat → Nat)
    (i : Nat) (pin : Pin) :
    (∀ t, pin.grid_title = some t → t ≠ "" → (map_pin keyword rng i pin).title = t) ∧
    (pin.grid_title = none ∨ pin.grid_title = some "" →
      (map_pin keyword rng i pin).title = pin.description.getD "") ∧
    (pin.grid_title = none → pin.description = none →
      (map_pin keyword rng i pin).title = "") ∧
    (∀ entry u, pin.images = some { orig := some entry } → entry.url = some u →
      (map_pin keyword rng i pin).image_url = u) ∧
    (pin.images = none ∨ pin.images = some { orig := none } →
      (map_pin keyword rng i pin).image_url = "") := by
  refine ⟨?_, ?_, ?_, ?_, ?_⟩
  · intro t ht hne
    simp [map_pin, ht, hne]
  · rintro (h | h) <;> simp [map_pin, h]
  · intro h1 h2
    simp [map_pin, h1, h2]
  · intro entry u him hu
    simp [map_pin, him, hu]
  · rintro (h | h) <;> simp [map_pin, h]

/-- A well-populated provider record for the C6 witness. -/
def pin_titled : Pin :=
  { grid_title := some "Cool Fit",
    images := some { orig := some { url := some "https://img.example/1.jpg" } } }

/-- Witness for the amended C6 at a concrete record. -/
theorem C6_amended_witness :
    (map_pin "street" rng0 0 pin_titled).title = "Cool Fit" ∧
    (map_pin "street" rng0 0 pin_titled).image_url = "https://img.example/1.jpg" :=
  ⟨(C6_amended_title_and_image "street" rng0 0 pin_titled).1 "Cool Fit" rfl (by decide),
   (C6_amended_title_and_image "street" rng0 0 pin_titled).2.2.2.1
     { url := some "https://img.example/1.jpg" } "https://img.example/1.jpg" rfl rfl⟩

/-- C7: construction performs no network call; it fails with the
configuration error exactly when no non-empty credential token resolves,
and succeeds otherwise. -/
theorem C7_construction (env : Option String) :
    (PinterestScraper.init env).2 = [] ∧
    (¬ token_resolvable env → ∃ msg, (PinterestScraper.init env).1 = .error msg) ∧
    (token_resolvable env → ∃ s, (PinterestScraper.init env).1 = .ok s) := by
  refine ⟨?_, ?_, ?_⟩
  · cases env with
    | none => rfl
    | some k =>
      simp only [PinterestScraper.init]
      split <;> rfl
  · intro h
    cases env with
    | none => exact ⟨_, rfl⟩
    | some k =>
      by_cases hk : k = ""
      · subst hk
        exact ⟨_, rfl⟩
      · exact absurd ⟨k, rfl, hk⟩ h
  · rintro ⟨k, rfl, hk⟩
    simp [PinterestScraper.init, hk]

/-- Witness for C7: unset environment fails without a network call, a
concrete token succeeds. -/
theorem C7_witness :
    (PinterestScraper.init none).2 = [] ∧
    (∃ msg, (PinterestScraper.init none).1 = Except.error msg) ∧
    (∃ s, (PinterestScraper.init (some "sk-test-123")).1 = Except.ok s) :=
  ⟨(C7_construction none).1,
   (C7_construction none).2.1 (by
     rintro ⟨k, hk, -⟩
     exact Option.noConfusion hk),
   (C7_construction (some "sk-test-123")).2.2 ⟨"sk-test-123", rfl, by decide⟩⟩

/-- C9 counterexample: a record omitting `url` and `created_at` yields an
Item whose `source_url` and `created_at` are null (`none`), not strings. -/
theorem C9_counterexample :
    (scrape_pinterest "x" 5 (.ok { success := some true, pins := some [{}] }) rng0).map
      Item.source_url = [none] ∧
    (scrape_pinterest "x" 5 (.ok { success := some true, pins := some [{}] }) rng0).map
      Item.created_at = [none] := by
  constructor <;> rfl

/-- C9 amended: on the success path `source_url` and `created_at` pass the
provider's values through unchanged — a record that omits them produces
null fields, not empty strings. -/
theorem C9_amended_passthrough (keyword : String) (n : Nat) (ps : List Pin)
    (rng : Nat → Nat) (j : Nat) :
    ((scrape_pinterest keyword n (.ok { success := some true, pins := some ps }) rng).get? j).map
        Item.source_url = (if j < n then ps.get? j else none).map Pin.url ∧
    ((scrape_pinterest keyword n (.ok { success := some true, pins := some ps }) rng).get? j).map
        Item.created_at = (if j < n then ps.get? j else none).map Pin.created_at := by
  rw [scrape_success_get_eq, Option.map_map, Option.map_map]
  constructor <;> rfl

/-- C10: a payload whose top-level success indicator is absent entirely is
treated exactly like an unsuccessful one: full-count synthetic fallback. -/
theorem C10_missing_success_key_falls_back (keyword : String) (n : Nat)
    (pins : Option (List Pin)) (rng : Nat → Nat) :
    scrape_pinterest keyword n (.ok { success := none, pins := pins }) rng =
      generate_mock_items keyword n rng ∧
    (scrape_pinterest keyword n (.ok { success := none, pins := pins }) rng).length = n := by
  have : scrape_pinterest keyword n (.ok { success := none, pins := pins }) rng =
      generate_mock_items keyword n rng := by
    simp [scrape_pinterest, pyTruthy]
  rw [this]
  exact ⟨rfl, generate_mock_items_length keyword n rng⟩
